import Mathlib

/-! Shallow embedding of the per-stream core of kcp-go (src/stream.go):
the stream control layer (command-tag dispatch, close and half-close
lifecycle), the WriteBuffer segmentation loop, SYN processing, and the
multi-tunnel dispatcher (parallelTun and output).  Go machine integers
are modelled as Nat (no arithmetic here overflows), byte strings as
List Nat, wall-clock instants as Nat with the Go zero Time as Option
none, and the external collaborators (tunnel selector, UDP address
resolution) as function parameters. -/

namespace KcpGo

/-- Command tag bytes from the Go constant block: PSH = the byte of
the character 1, through RST = the byte of the character 5. -/
def PSH : Nat := 49

def SYN : Nat := 50

def FIN : Nat := 51

def HRT : Nat := 52

def RST : Nat := 53

/-- gouuid.Size: a stream UUID is 16 bytes. -/
def gouuidSize : Nat := 16

/-- CleanTimeout = 5 seconds: the drain timer armed by Close. -/
def CleanTimeout : Nat := 5

/-- DefaultParallelXmit = 5. -/
def DefaultParallelXmit : Nat := 5

/-- DefaultParallelTime = 60 seconds. -/
def DefaultParallelTime : Nat := 60

/-- The error values surfaced by the stream layer.  resolveFail stands
for whatever error net.ResolveUDPAddr returns; the stream code only
propagates it, never inspects it. -/
inductive GoErr where
  | errTimeout
  | errTunnelPick
  | errStreamFlag
  | errSynInfo
  | errDialParam
  | errRemoteStream
  | ioErrClosedPipe
  | ioErrUnexpectedEOF
  | ioEOF
  | resolveFail
deriving DecidableEq, Repr

/-- One queued outbound datagram copy: ipv4.Message with a single
buffer and a destination address (addresses abstracted as Nat). -/
structure Msg where
  buf : List Nat
  addr : Nat
deriving DecidableEq, Repr

/-- The observable state of a UDPStream.  Each sync.Once together with
the channel it closes is one Bool (the code always sets them together);
chClean is the armed clean-timer duration (none = not armed);
parallelExpire is none for the Go zero time.  msgss mirrors the
per-tunnel pending batches. -/
structure StreamState where
  uuid : List Nat
  accepted : Bool
  tunnels : List Nat
  remotes : List Nat
  recvSynUsed : Bool
  sendFin : Bool
  recvFin : Bool
  rst : Bool
  closed : Bool
  chClean : Option Nat
  kcpReleased : Bool
  parallelXmit : Nat
  parallelTime : Nat
  parallelExpire : Option Nat
  msgss : List (List Msg)
deriving DecidableEq, Repr

/-- The WriteBuffer inner segmentation loop, fuel-indexed so that it is
structurally recursive.  Mirrors stream.go lines 361-373: while the
remaining input b has at least mss bytes, emit the mss-byte segment
tag plus the first mss-1 bytes of b and drop those bytes from b;
finally emit tag plus the remaining (shorter than mss) bytes.  Returns
the emitted segments in order and the final value of the Go variable b
(the last fragment, which the Go loop leaves in b when it breaks).
Fuel b.length + 1 is enough whenever 2 <= mss, which the Go code
presupposes (with mss <= 1 the Go loop would not terminate). -/
def pushSegsFuel : Nat → Nat → Nat → List Nat → List (List Nat) × List Nat
  | 0, _, _, b => ([], b)
  | fuel + 1, mss, flag, b =>
    if b.length < mss then ([flag :: b], b)
    else
      let rest := pushSegsFuel fuel mss flag (b.drop (mss - 1))
      ((flag :: b.take (mss - 1)) :: rest.1, rest.2)

/-- The segmentation loop of WriteBuffer at adequate fuel. -/
def pushSegments (mss flag : Nat) (b : List Nat) : List (List Nat) × List Nat :=
  pushSegsFuel (b.length + 1) mss flag b

/-- The value WriteBuffer returns on success: len(b) evaluated after
the loop, i.e. the length of the final fragment (stream.go line 385). -/
def writeBufferRet (mss flag : Nat) (b : List Nat) : Nat :=
  (pushSegments mss flag b).2.length

/-- The number of user bytes actually handed to kcp.Send by a list of
segments: each segment is one tag byte plus its user bytes. -/
def userBytesSubmitted (segs : List (List Nat)) : Nat :=
  (segs.map (fun seg => seg.length - 1)).sum

/-- The entry select of WriteBuffer (stream.go lines 344-352), with
the cases in source order; when exactly one terminal channel is closed
this is the unique possible outcome of the Go select.  none means the
select falls through to the default case and the write proceeds. -/
def writeEntry (s : StreamState) : Option GoErr :=
  if s.closed then some GoErr.ioErrClosedPipe
  else if s.rst then some GoErr.ioErrUnexpectedEOF
  else if s.sendFin then some GoErr.ioErrClosedPipe
  else none

/-- The blocked-writer select of WriteBuffer (stream.go lines 402-415),
cases in source order: note that the chSendFinEvent case returns io.EOF
there, unlike the entry select.  none means the writer woke on the
write event and loops. -/
def writeWake (s : StreamState) : Option GoErr :=
  if s.closed then some GoErr.ioErrClosedPipe
  else if s.rst then some GoErr.ioErrUnexpectedEOF
  else if s.sendFin then some GoErr.ioEOF
  else none

/-- Close (stream.go lines 485-502).  Returns the next state, the
error Close returns, and the result of the internal WriteFlag(RST)
entry select (none means the RST segment was submitted to the ARQ
engine; the windows are open for the 0-byte RST payload).  A repeat
call returns closed-pipe without attempting the write or touching
state. -/
def closeStep (s : StreamState) : StreamState × Option GoErr × Option GoErr :=
  if s.closed then (s, some GoErr.ioErrClosedPipe, none)
  else ({s with closed := true, chClean := some CleanTimeout}, none, writeEntry s)

/-- CloseWrite (stream.go lines 504-517): same shape as closeStep; the
third component is the internal WriteFlag(FIN) entry result.  Every
call returns nil; only the first closes chSendFinEvent. -/
def closeWriteStep (s : StreamState) : StreamState × Option GoErr × Option GoErr :=
  if s.sendFin then (s, none, none)
  else ({s with sendFin := true}, none, writeEntry s)

/-- N successive Close calls: the resulting state. -/
def iterClose : Nat → StreamState → StreamState
  | 0, s => s
  | n + 1, s => iterClose n (closeStep s).1

/-- N successive Close calls: the list of returned errors in order. -/
def closeRets : Nat → StreamState → List (Option GoErr)
  | 0, _ => []
  | n + 1, s => (closeStep s).2.1 :: closeRets n (closeStep s).1

/-- N successive CloseWrite calls: the resulting state. -/
def iterCloseWrite : Nat → StreamState → StreamState
  | 0, s => s
  | n + 1, s => iterCloseWrite n (closeWriteStep s).1

/-- N successive CloseWrite calls: the list of returned errors. -/
def closeWriteRets : Nat → StreamState → List (Option GoErr)
  | 0, _ => []
  | n + 1, s => (closeWriteStep s).2.1 :: closeWriteRets n (closeWriteStep s).1

/-- reset (stream.go lines 519-532): first call closes chRst and
releases the ARQ transmit buffers; later calls do nothing. -/
def resetStep (s : StreamState) : StreamState :=
  if s.rst then s else {s with rst := true, kcpReleased := true}

/-- recvFin (stream.go lines 744-751), state part: the recvFinOnce
closes chRecvFinEvent exactly once. -/
def recvFinStep (s : StreamState) : StreamState :=
  if s.recvFin then s else {s with recvFin := true}

/-- Go strings.Split(s, " ") on a byte string: split at every space
byte (32), keeping empty fields.  Like the Go function it never
returns an empty list: the empty input yields one empty field. -/
def splitSpace : List Nat → List (List Nat)
  | [] => [[]]
  | c :: rest =>
    if c = 32 then [] :: splitSpace rest
    else
      match splitSpace rest with
      | [] => [[c]]
      | f :: fs => (c :: f) :: fs

/-- The resolution loop of recvSyn (stream.go lines 729-736): resolve
each endpoint in order, failing on the first unresolvable one. -/
def resolveAll (resolve : List Nat → Option Nat) : List (List Nat) → Option (List Nat)
  | [] => some []
  | r :: rs =>
    match resolve r with
    | none => none
    | some a =>
      match resolveAll resolve rs with
      | none => none
      | some tl => some (a :: tl)

/-- recvSyn (stream.go lines 709-742).  pick abstracts
TunnelSelector.Pick (returning abstract tunnel ids) and resolve
abstracts net.ResolveUDPAddr.  Returns the next state, the byte count
n, and the error.  The once fires on the first call even if a later
check fails, so only the very first SYN can ever replace the arrays. -/
def recvSynStep (pick : List (List Nat) → List Nat) (resolve : List Nat → Option Nat)
    (s : StreamState) (data : List Nat) : StreamState × Nat × Option GoErr :=
  if s.recvSynUsed then (s, data.length, none)
  else
    let s1 := {s with recvSynUsed := true}
    let remotes := splitSpace data
    if remotes.length = 0 then (s1, data.length, some GoErr.errSynInfo)
    else
      let tunnels := pick remotes
      if tunnels.length = 0 ∨ tunnels.length ≠ remotes.length then
        (s1, data.length, some GoErr.errSynInfo)
      else
        match resolveAll resolve remotes with
        | none => (s1, data.length, some GoErr.resolveFail)
        | some addrs => ({s1 with tunnels := tunnels, remotes := addrs}, data.length, none)

/-- cmdRead (stream.go lines 688-703) together with the state effects
of the recv handlers it dispatches to.  bcap is the capacity of the
caller's buffer b; recvPsh returns copy(b, data) = min. -/
def cmdReadStep (pick : List (List Nat) → List Nat) (resolve : List Nat → Option Nat)
    (s : StreamState) (flag : Nat) (data : List Nat) (bcap : Nat) :
    StreamState × Nat × Option GoErr :=
  if flag = PSH then (s, min bcap data.length, none)
  else if flag = SYN then recvSynStep pick resolve s data
  else if flag = FIN then (recvFinStep s, data.length, some GoErr.ioEOF)
  else if flag = HRT then (s, data.length, none)
  else if flag = RST then (resetStep s, data.length, some GoErr.ioErrUnexpectedEOF)
  else (s, 0, some GoErr.errStreamFlag)

/-- parallelTun (stream.go lines 604-619): the replication-factor
decision.  now is the current instant; After is strict comparison. -/
def parallelTunStep (s : StreamState) (now : Nat) (xmitMax : Nat) : Nat × StreamState :=
  if s.parallelXmit ≤ xmitMax then
    (s.tunnels.length, {s with parallelExpire := some (now + s.parallelTime)})
  else
    match s.parallelExpire with
    | none => (1, s)
    | some e => if now < e then (s.tunnels.length, s) else (1, {s with parallelExpire := none})

/-- The contents of one outbound copy (stream.go lines 627-630): a
pool buffer truncated to len(buf), its first min(16, len(buf)) bytes
overwritten with the UUID and bytes 16.. overwritten from buf. -/
def mkCopyBuf (uuid buf : List Nat) : List Nat :=
  uuid.take (min gouuidSize buf.length) ++ (buf.drop gouuidSize).take (buf.length - gouuidSize)

/-- The msgss-growing loop of output (stream.go lines 623-625). -/
def growMsgss (msgss : List (List Msg)) (k : Nat) : List (List Msg) :=
  msgss ++ List.replicate (k - msgss.length) []

/-- The appending loop of output (stream.go lines 626-634): queue i of
the grown msgss receives one new message for each i below k. -/
def appendMsgAt (grown : List (List Msg)) (k : Nat) (m : Nat → Msg) : List (List Msg) :=
  List.ofFn (fun j : Fin grown.length => if (j : Nat) < k then grown.get j ++ [m j] else grown.get j)

/-- output (stream.go lines 621-635): ask parallelTun for the
replication factor, grow msgss to that many queues, and append one
UUID-stamped copy addressed to remotes[i] to each queue i below the
factor. -/
def outputStep (s : StreamState) (now : Nat) (buf : List Nat) (xmitMax : Nat) : StreamState :=
  let r := parallelTunStep s now xmitMax
  let s1 := r.2
  let grown := growMsgss s1.msgss r.1
  {s1 with msgss :=
    appendMsgAt grown r.1 (fun i => Msg.mk (mkCopyBuf s1.uuid buf) (s1.remotes.getD i 0))}

/-- The observable actions Dial can take before returning. -/
inductive DialAct where
  | sendSyn (payload : List Nat)
  | flushAll
  | waitDial
deriving DecidableEq, Repr

/-- strings.Join(locals, " ") on byte strings. -/
def joinSpace (ls : List (List Nat)) : List Nat :=
  List.intercalate [32] ls

/-- Dial (stream.go lines 419-450): on an accepted stream it returns
nil before doing anything; with no locals it returns errDialParam;
otherwise it sends the SYN, flushes, and blocks, with the select
outcome abstracted as waitOutcome. -/
def dialStep (s : StreamState) (locals : List (List Nat)) (waitOutcome : Option GoErr) :
    List DialAct × Option GoErr :=
  if s.accepted then ([], none)
  else if locals.length = 0 then ([], some GoErr.errDialParam)
  else ([DialAct.sendSyn (joinSpace locals), DialAct.flushAll, DialAct.waitDial], waitOutcome)

/-- A freshly constructed stream with two tunnels, used to instantiate
the universally quantified theorems at concrete inputs. -/
def fresh0 : StreamState :=
  { uuid := List.range 16, accepted := false, tunnels := [0, 1], remotes := [3, 4],
    recvSynUsed := false, sendFin := false, recvFin := false, rst := false, closed := false,
    chClean := none, kcpReleased := false, parallelXmit := DefaultParallelXmit,
    parallelTime := DefaultParallelTime, parallelExpire := none, msgss := [] }

/-- fresh0 after CloseWrite has fired the send-FIN signal. -/
def sFin0 : StreamState :=
  {fresh0 with sendFin := true}

/-- fresh0 after its first SYN has been consumed. -/
def sUsed0 : StreamState :=
  {fresh0 with recvSynUsed := true}

/-- fresh0 as the passive (accepted) side. -/
def sAcc0 : StreamState :=
  {fresh0 with accepted := true}

/-- A selector stub returning one abstract tunnel per endpoint. -/
def pickOne : List (List Nat) → List Nat :=
  fun rs => List.range rs.length

/-- A selector stub returning no tunnels. -/
def pick0 : List (List Nat) → List Nat :=
  fun _ => []

/-- A resolver stub that, like net.ResolveUDPAddr, fails on the empty
endpoint string. -/
def resolveStrict : List Nat → Option Nat :=
  fun e => if e.length = 0 then none else some 7

/-- A resolver stub that fails on everything. -/
def resolve0 : List Nat → Option Nat :=
  fun _ => none

/-- Claim C1 (code_bug evidence): WriteBuffer with mss = 3 on a 3-byte
input submits segments carrying 2 and 1 user bytes — 3 user bytes in
total — yet returns 1, the length of the final tail fragment left in
the Go variable b, instead of the original length 3. -/
theorem writeBuffer_returns_tail_length :
    pushSegments 3 PSH [1, 2, 3] = ([[PSH, 1, 2], [PSH, 3]], [3])
    ∧ writeBufferRet 3 PSH [1, 2, 3] = 1
    ∧ userBytesSubmitted (pushSegments 3 PSH [1, 2, 3]).1 = 3 := by
  decide

/-- Claim C2 counterexample: feeding the unknown command tag byte 57
(character 9) through cmdRead returns the stream-flag error, but the
stream does not transition to reset: the reset signal stays open, the
ARQ buffers are not released, and the state is untouched. -/
theorem cmdRead_unknown_flag_no_reset :
    (cmdReadStep pick0 resolve0 fresh0 57 [] 0).1.rst = false
    ∧ (cmdReadStep pick0 resolve0 fresh0 57 [] 0).1.kcpReleased = false
    ∧ (cmdReadStep pick0 resolve0 fresh0 57 [] 0).2.2 = some GoErr.errStreamFlag
    ∧ (cmdReadStep pick0 resolve0 fresh0 57 [] 0).1 = fresh0 := by
  decide

/-- Claim C2 amended: a received message whose first byte is none of
the five known command tags makes the Read that consumed it return
zero bytes and the stream-flag error, with the stream state unchanged
(in particular no reset and no buffer release). -/
theorem cmdRead_unknown_flag_spec (pick : List (List Nat) → List Nat)
    (resolve : List Nat → Option Nat) (s : StreamState) (flag : Nat) (data : List Nat)
    (bcap : Nat) (h1 : flag ≠ PSH) (h2 : flag ≠ SYN) (h3 : flag ≠ FIN) (h4 : flag ≠ HRT)
    (h5 : flag ≠ RST) :
    cmdReadStep pick resolve s flag data bcap = (s, 0, some GoErr.errStreamFlag) := by
  simp [cmdReadStep, h1, h2, h3, h4, h5]

/-- Witness for cmdRead_unknown_flag_spec at the tag byte 57. -/
theorem cmdRead_unknown_flag_spec_witness :
    cmdReadStep pick0 resolve0 fresh0 57 [] 0 = (fresh0, 0, some GoErr.errStreamFlag) :=
  cmdRead_unknown_flag_spec pick0 resolve0 fresh0 57 [] 0 (by decide) (by decide) (by decide)
    (by decide) (by decide)

/-- Claim C3: the replication factor chosen by parallelTun.  If
xmitMax is at least the parallelXmit threshold, the factor is the
number of tunnels and the expiry is extended to now + parallelTime;
otherwise, if the expiry is a set instant strictly in the future, the
factor is the number of tunnels; otherwise the factor is 1. -/
theorem parallelTun_policy (s : StreamState) (now xmitMax : Nat) :
    (s.parallelXmit ≤ xmitMax →
      parallelTunStep s now xmitMax
        = (s.tunnels.length, {s with parallelExpire := some (now + s.parallelTime)}))
    ∧ (xmitMax < s.parallelXmit → s.parallelExpire = none →
      (parallelTunStep s now xmitMax).1 = 1)
    ∧ (∀ e, xmitMax < s.parallelXmit → s.parallelExpire = some e → now < e →
      parallelTunStep s now xmitMax = (s.tunnels.length, s))
    ∧ (∀ e, xmitMax < s.parallelXmit → s.parallelExpire = some e → e ≤ now →
      (parallelTunStep s now xmitMax).1 = 1) := by
  refine ⟨fun h => ?_, fun h h0 => ?_, fun e h h0 he => ?_, fun e h h0 he => ?_⟩
  · simp [parallelTunStep, h]
  · simp [parallelTunStep, Nat.not_le.mpr h, h0]
  · simp [parallelTunStep, Nat.not_le.mpr h, h0, he]
  · simp [parallelTunStep, Nat.not_le.mpr h, h0, Nat.not_lt.mpr he]

/-- Witness for parallelTun_policy: at threshold 5 with xmitMax 7 the
factor is the tunnel count and the expiry is extended. -/
theorem parallelTun_policy_witness :
    parallelTunStep fresh0 10 7
      = (fresh0.tunnels.length, {fresh0 with parallelExpire := some (10 + fresh0.parallelTime)}) :=
  (parallelTun_policy fresh0 10 7).1 (by decide)

/-- Claim C7 counterexample: on a stream whose send side is
half-closed (and not closed or reset), a writer observing the
half-close while blocked waiting for window space gets io.EOF, not
the closed-pipe error a fully closed stream gives. -/
theorem write_halfclosed_blocked_eof :
    writeWake sFin0 = some GoErr.ioEOF
    ∧ writeWake sFin0 ≠ some GoErr.ioErrClosedPipe := by
  decide

/-- Claim C7 amended: with the send-FIN signal fired on an otherwise
live stream, a Write observing it at entry fails with closed-pipe,
but one observing it while blocked on window space fails with io.EOF. -/
theorem write_halfclosed_paths (s : StreamState) (hf : s.sendFin = true)
    (hc : s.closed = false) (hr : s.rst = false) :
    writeEntry s = some GoErr.ioErrClosedPipe ∧ writeWake s = some GoErr.ioEOF := by
  simp [writeEntry, writeWake, hf, hc, hr]

/-- Witness for write_halfclosed_paths at the half-closed fresh stream. -/
theorem write_halfclosed_paths_witness :
    writeEntry sFin0 = some GoErr.ioErrClosedPipe ∧ writeWake sFin0 = some GoErr.ioEOF :=
  write_halfclosed_paths sFin0 rfl rfl rfl

/-- Claim C9: Dial on an accepted (passive-side) stream returns nil
with no observable actions — no SYN, no flush, no waiting — for every
locals list and every wait outcome. -/
theorem dial_accepted_nil (s : StreamState) (locals : List (List Nat))
    (waitOutcome : Option GoErr) (h : s.accepted = true) :
    dialStep s locals waitOutcome = ([], none) := by
  simp [dialStep, h]

/-- Witness for dial_accepted_nil on the accepted fresh stream. -/
theorem dial_accepted_nil_witness :
    dialStep sAcc0 [[1, 2]] (some GoErr.errTimeout) = ([], none) :=
  dial_accepted_nil sAcc0 [[1, 2]] (some GoErr.errTimeout) rfl

/-- Claim C10: when the send-FIN signal has already fired and the
stream is not yet closed or reset, the first Close submits no RST (its
internal write fails at the entry select with closed-pipe), yet still
returns nil, closes the closed signal, and arms the 5-second clean
timer. -/
theorem close_after_closewrite (s : StreamState) (hf : s.sendFin = true)
    (hc : s.closed = false) (hr : s.rst = false) :
    closeStep s
      = ({s with closed := true, chClean := some CleanTimeout}, none,
          some GoErr.ioErrClosedPipe) := by
  simp [closeStep, writeEntry, hc, hf, hr]

/-- Witness for close_after_closewrite. -/
theorem close_after_closewrite_witness :
    closeStep sFin0
      = ({sFin0 with closed := true, chClean := some CleanTimeout}, none,
          some GoErr.ioErrClosedPipe) :=
  close_after_closewrite sFin0 rfl rfl rfl

/-- A Close on an already closed stream changes nothing and returns
closed-pipe. -/
theorem closeStep_of_closed (s : StreamState) (h : s.closed = true) :
    closeStep s = (s, some GoErr.ioErrClosedPipe, none) := by
  simp [closeStep, h]

/-- Iterating Close on an already closed stream is the identity. -/
theorem iterClose_of_closed (n : Nat) (s : StreamState) (h : s.closed = true) :
    iterClose n s = s := by
  induction n with
  | zero => rfl
  | succ m ih => simp [iterClose, closeStep_of_closed s h, ih]

/-- Every Close on an already closed stream returns closed-pipe. -/
theorem closeRets_of_closed (n : Nat) (s : StreamState) (h : s.closed = true) :
    closeRets n s = List.replicate n (some GoErr.ioErrClosedPipe) := by
  induction n with
  | zero => rfl
  | succ m ih => simp [closeRets, closeStep_of_closed s h, ih, List.replicate_succ]

/-- After any CloseWrite the send-FIN signal is fired. -/
theorem closeWriteStep_sendFin (s : StreamState) : ((closeWriteStep s).1).sendFin = true := by
  cases h : s.sendFin <;> simp [closeWriteStep, h]

/-- Iterating CloseWrite on a send-half-closed stream is the identity. -/
theorem iterCloseWrite_of_sendFin (n : Nat) (s : StreamState) (h : s.sendFin = true) :
    iterCloseWrite n s = s := by
  induction n with
  | zero => rfl
  | succ m ih => simp [iterCloseWrite, closeWriteStep, h, ih]

/-- CloseWrite returns nil on every call, whatever the state. -/
theorem closeWriteRets_all_none (n : Nat) :
    ∀ s : StreamState, closeWriteRets n s = List.replicate n none := by
  induction n with
  | zero => intro s; rfl
  | succ m ih =>
    intro s
    cases h : s.sendFin <;> simp [closeWriteRets, closeWriteStep, h, ih, List.replicate_succ]

/-- Claim C4: Close and CloseWrite are idempotent.  For every N at
least 1, N Close calls leave the same state as one, the first
returning nil and every later one closed-pipe; N CloseWrite calls
leave the same state as one and each returns nil. -/
theorem close_closewrite_idempotent (s : StreamState) (n : Nat) (h1 : 1 ≤ n)
    (hc : s.closed = false) :
    iterClose n s = iterClose 1 s
    ∧ closeRets n s = none :: List.replicate (n - 1) (some GoErr.ioErrClosedPipe)
    ∧ iterCloseWrite n s = iterCloseWrite 1 s
    ∧ closeWriteRets n s = List.replicate n none := by
  obtain ⟨m, rfl⟩ : ∃ m, n = m + 1 := ⟨n - 1, by omega⟩
  have hstep1 : ((closeStep s).1).closed = true := by simp [closeStep, hc]
  have hret : (closeStep s).2.1 = none := by simp [closeStep, hc]
  refine ⟨?_, ?_, ?_, ?_⟩
  · show iterClose m (closeStep s).1 = iterClose 0 (closeStep s).1
    rw [iterClose_of_closed m _ hstep1]
    rfl
  · show (closeStep s).2.1 :: closeRets m (closeStep s).1 = _
    rw [hret, closeRets_of_closed m _ hstep1]
    simp
  · show iterCloseWrite m (closeWriteStep s).1 = iterCloseWrite 0 (closeWriteStep s).1
    rw [iterCloseWrite_of_sendFin m _ (closeWriteStep_sendFin s)]
    rfl
  · exact closeWriteRets_all_none (m + 1) s

/-- Witness for close_closewrite_idempotent: three calls on fresh0. -/
theorem close_closewrite_idempotent_witness :
    iterClose 3 fresh0 = iterClose 1 fresh0
    ∧ closeRets 3 fresh0 = none :: List.replicate (3 - 1) (some GoErr.ioErrClosedPipe)
    ∧ iterCloseWrite 3 fresh0 = iterCloseWrite 1 fresh0
    ∧ closeWriteRets 3 fresh0 = List.replicate 3 none :=
  close_closewrite_idempotent fresh0 3 (by decide) rfl

/-- Claim C6: SYN processing is idempotent.  Once the receive-SYN once
has fired, every further SYN is consumed — its byte count returned
with no error — and leaves the whole state, tunnel and remote arrays
included, untouched; and any first SYN fires the once, so no later
SYN can modify the arrays. -/
theorem recvSyn_idempotent (pick : List (List Nat) → List Nat)
    (resolve : List Nat → Option Nat) (s : StreamState) (data : List Nat) :
    (s.recvSynUsed = true → recvSynStep pick resolve s data = (s, data.length, none))
    ∧ (s.recvSynUsed = false → ((recvSynStep pick resolve s data).1).recvSynUsed = true) := by
  refine ⟨fun h => by simp [recvSynStep, h], fun h => ?_⟩
  simp only [recvSynStep, h]
  split
  · simp_all
  · split
    · rfl
    · split
      · rfl
      · split <;> rfl

/-- Witness for recvSyn_idempotent: a second SYN on sUsed0. -/
theorem recvSyn_idempotent_witness :
    recvSynStep pickOne resolveStrict sUsed0 [65] = (sUsed0, 1, none) :=
  (recvSyn_idempotent pickOne resolveStrict sUsed0 [65]).1 rfl

/-- Claim C8 (code_bug evidence): an empty SYN payload splits into the
one-element list holding the empty endpoint, so the length-zero guard
of recvSyn never fires; processing proceeds past the tunnel pick into
address resolution and surfaces the resolver's error instead of
errSynInfo. -/
theorem recvSyn_empty_payload_resolves :
    splitSpace [] = [[]]
    ∧ recvSynStep pickOne resolveStrict fresh0 []
        = ({fresh0 with recvSynUsed := true}, 0, some GoErr.resolveFail) := by
  decide

/-- parallelTun only ever touches the parallelExpire field. -/
theorem parallelTunStep_preserves (s : StreamState) (now xmitMax : Nat) :
    ((parallelTunStep s now xmitMax).2).uuid = s.uuid
    ∧ ((parallelTunStep s now xmitMax).2).remotes = s.remotes
    ∧ ((parallelTunStep s now xmitMax).2).msgss = s.msgss := by
  unfold parallelTunStep
  split
  · exact ⟨rfl, rfl, rfl⟩
  · split
    · exact ⟨rfl, rfl, rfl⟩
    · split
      · exact ⟨rfl, rfl, rfl⟩
      · exact ⟨rfl, rfl, rfl⟩

/-- With a full-length UUID and a segment at least 16 bytes long, the
copied buffer is exactly the UUID followed by the segment's tail. -/
theorem mkCopyBuf_eq {uuid buf : List Nat} (hu : uuid.length = gouuidSize)
    (h16 : gouuidSize ≤ buf.length) :
    mkCopyBuf uuid buf = uuid ++ buf.drop gouuidSize := by
  have h1 : uuid.take (min gouuidSize buf.length) = uuid := by
    rw [Nat.min_eq_left h16, ← hu, List.take_length]
  have h2 : (buf.drop gouuidSize).take (buf.length - gouuidSize) = buf.drop gouuidSize := by
    rw [← List.length_drop, List.take_length]
  unfold mkCopyBuf
  rw [h1, h2]

/-- growMsgss pads with empty queues up to k. -/
theorem growMsgss_length (msgss : List (List Msg)) (k : Nat) :
    (growMsgss msgss k).length = msgss.length + (k - msgss.length) := by
  simp [growMsgss]

/-- Queue i of the appending loop, for i below the replication factor:
the old queue with one new message appended. -/
theorem appendMsgAt_getD (grown : List (List Msg)) (k : Nat) (m : Nat → Msg) (i : Nat)
    (hik : i < k) (hig : i < grown.length) :
    (appendMsgAt grown k m).getD i [] = grown.getD i [] ++ [m i] := by
  have hlen : i < (appendMsgAt grown k m).length := by
    simpa [appendMsgAt] using hig
  rw [List.getD_eq_getElem _ _ hlen, List.getD_eq_getElem _ _ hig]
  simp [appendMsgAt, List.getElem_ofFn, hik]

/-- Claim C5: every datagram copy the dispatcher queues for tunnel
index i below the replication factor is appended to queue i and
consists of the stream UUID in bytes [0, 16), the ARQ segment's bytes
from 16 on in bytes [16, size), with destination remotes[i]. -/
theorem output_copy_format (s : StreamState) (now : Nat) (buf : List Nat) (xmitMax i : Nat)
    (h16 : gouuidSize ≤ buf.length) (hu : s.uuid.length = gouuidSize)
    (hik : i < (parallelTunStep s now xmitMax).1) :
    ((outputStep s now buf xmitMax).msgss.getD i [])
      = (growMsgss ((parallelTunStep s now xmitMax).2).msgss
            (parallelTunStep s now xmitMax).1).getD i []
        ++ [Msg.mk (s.uuid ++ buf.drop gouuidSize) (s.remotes.getD i 0)]
    ∧ (s.uuid ++ buf.drop gouuidSize).take gouuidSize = s.uuid
    ∧ (s.uuid ++ buf.drop gouuidSize).drop gouuidSize = buf.drop gouuidSize := by
  obtain ⟨hpu, hpr, hpm⟩ := parallelTunStep_preserves s now xmitMax
  have hig : i < (growMsgss ((parallelTunStep s now xmitMax).2).msgss
      (parallelTunStep s now xmitMax).1).length := by
    rw [growMsgss_length]
    omega
  refine ⟨?_, ?_, ?_⟩
  · have hout : (outputStep s now buf xmitMax).msgss
        = appendMsgAt
            (growMsgss ((parallelTunStep s now xmitMax).2).msgss (parallelTunStep s now xmitMax).1)
            (parallelTunStep s now xmitMax).1
            (fun j => Msg.mk (mkCopyBuf ((parallelTunStep s now xmitMax).2).uuid buf)
              (((parallelTunStep s now xmitMax).2).remotes.getD j 0)) := rfl
    rw [hout, appendMsgAt_getD _ _ _ i hik hig, hpu, hpr, mkCopyBuf_eq hu h16]
  · rw [← hu, List.take_left]
  · rw [← hu, List.drop_left]

/-- Witness for output_copy_format: a 20-byte segment dispatched with
xmitMax 7 over the two tunnels of fresh0, copy index 1. -/
theorem output_copy_format_witness :
    ((outputStep fresh0 0 (List.range 20) 7).msgss.getD 1 [])
      = (growMsgss ((parallelTunStep fresh0 0 7).2).msgss
            (parallelTunStep fresh0 0 7).1).getD 1 []
        ++ [Msg.mk (fresh0.uuid ++ (List.range 20).drop gouuidSize) (fresh0.remotes.getD 1 0)]
    ∧ (fresh0.uuid ++ (List.range 20).drop gouuidSize).take gouuidSize = fresh0.uuid
    ∧ (fresh0.uuid ++ (List.range 20).drop gouuidSize).drop gouuidSize
        = (List.range 20).drop gouuidSize :=
  output_copy_format fresh0 0 (List.range 20) 7 1 (by decide) (by decide) (by decide)

end KcpGo
